import Mathlib

/-!
Shallow embedding of the connection pool in `src/mysql.py`
(class `MySQLConnectionPool`), together with the models of the
effective (shadowed) statement-executor and config-loader methods.

Conventions of the embedding:
* a `pymysql` session is a `Session` record carrying the observable
  outcomes of its `ping` and `close` calls;
* the idle `connection_queue` is a `List Session` whose head is the front
  of the FIFO; `put` appends at the back;
* the Python integer `current_connections` is an `Int` (it may be driven
  below zero by releasing invalid sessions, and the code never guards it);
* each call to `_create_connection` is an oracle value (`CreateResult`):
  either a fresh session or the message of the `ConnectionError` it raises;
* the blocking `connection_queue.get(block=True, timeout=...)` is given its
  sequential semantics: it returns the front idle session when one is
  queued and raises `queue.Empty` (timeout) otherwise, since in a single
  thread no concurrent release can feed the queue during the wait.
-/

namespace Mysql

/-- One backend database session (a `pymysql` connection handle).
`pingOk` records whether the underlying server round-trip
(`connection.ping`) still succeeds; `closeOk` records whether
`connection.close()` succeeds. -/
structure Session where
  id : Nat
  pingOk : Bool
  closeOk : Bool
deriving DecidableEq

/-- The typed error family rooted at `DatabaseError`
(`src/mysql.py` lines 23-55), each constructor carrying the
human-readable message the Python code formats. -/
inductive DBError where
  | connectionError (msg : String)
  | queryError (msg : String)
  | updateError (msg : String)
  | poolExhausted (msg : String)
deriving DecidableEq

/-- Model of `connection.ping(reconnect=...)`: it succeeds on a live
session; on a dead session it reconnects (and then succeeds) when
`reconnect` is true, and raises when `reconnect` is false. -/
def ping (s : Session) (reconnect : Bool) : Except String Unit :=
  if s.pingOk then Except.ok ()
  else if reconnect then Except.ok ()
  else Except.error "connection lost"

/-- Model of `connection.close()`. -/
def closeConn (s : Session) : Except String Unit :=
  if s.closeOk then Except.ok () else Except.error "close failed"

/-- Embedding of `MySQLConnectionPool._is_connection_valid` (lines
299-314): it pings with `reconnect=False`; any raised failure is logged
and mapped to `False`. -/
def is_connection_valid (s : Session) : Bool :=
  match ping s false with
  | Except.ok _ => true
  | Except.error _ => false

/-- Pool state: `currentConnections` is the Python counter
`current_connections` (the spec calls it `total_issued`), `idle` the FIFO
`connection_queue` (head = front). The three size/timeout parameters are
the constructor arguments `min_connections`, `max_connections` and
`connection_timeout`. -/
structure PoolState where
  minConnections : Nat
  maxConnections : Nat
  connectionTimeout : Nat
  currentConnections : Int
  idle : List Session
deriving DecidableEq

/-- Outcome of one call to `_create_connection` (lines 204-237): a new
session, or the message of the `ConnectionError` the call raises. -/
inductive CreateResult where
  | ok (s : Session)
  | fail (msg : String)
deriving DecidableEq

/-- Oracle fixing the outcome of each potential `_create_connection` call
inside one `get_connection` call: the fast-path replacement (line 260),
the locked grow path (line 269), and the wait-path replacement
(line 289). -/
structure CreateEnv where
  fastCreate : CreateResult
  growCreate : CreateResult
  waitCreate : CreateResult
deriving DecidableEq

/-- Result of one `get_connection` call: a session, or the raised
`DatabaseError`. -/
inductive AcquireResult where
  | ok (s : Session)
  | err (e : DBError)
deriving DecidableEq

/-- The message of the `PoolExhaustedError` raised at line 294; the
Python f-string interpolates the configured `connection_timeout`. -/
def poolExhaustedMsg (t : Nat) : String :=
  "连接池资源耗尽，无法获取连接，超时时间: " ++ toString t ++ "秒"

/-- Embedding of the `except Exception:` branch of `get_connection`
(lines 263-294): under the lock, grow when
`current_connections < max_connections` (creation failure surfaces as
`ConnectionError` and does not touch the counter); otherwise leave the
lock and block on the queue with the configured timeout.  In the wait
path an invalid session is closed (failures absorbed) and replaced by
`_create_connection` with no counter update and no max-size check; any
exception there — timeout or the replacement raising `ConnectionError` —
is caught at line 292 and re-raised as `PoolExhaustedError`. -/
def growOrWait (env : CreateEnv) (st : PoolState) : AcquireResult × PoolState :=
  if st.currentConnections < (st.maxConnections : Int) then
    match env.growCreate with
    | CreateResult.ok s =>
        (AcquireResult.ok s,
          { st with currentConnections := st.currentConnections + 1 })
    | CreateResult.fail msg =>
        (AcquireResult.err (DBError.connectionError ("创建新连接失败: " ++ msg)), st)
  else
    match st.idle with
    | s :: rest =>
        if is_connection_valid s then
          (AcquireResult.ok s, { st with idle := rest })
        else
          let _ := closeConn s
          match env.waitCreate with
          | CreateResult.ok s2 => (AcquireResult.ok s2, { st with idle := rest })
          | CreateResult.fail _ =>
              (AcquireResult.err
                  (DBError.poolExhausted (poolExhaustedMsg st.connectionTimeout)),
                { st with idle := rest })
    | [] =>
        (AcquireResult.err
            (DBError.poolExhausted (poolExhaustedMsg st.connectionTimeout)), st)

/-- Embedding of `MySQLConnectionPool.get_connection` (lines 239-297).
Step 1 pops the queue without blocking; an invalid popped session is
closed (failure absorbed) and replaced in place by `_create_connection`,
with no counter update; any step-1 exception — `queue.Empty` from the pop
or the `ConnectionError` from the replacement — is caught by the
`except Exception:` at line 263, after which control proceeds to the
locked grow-or-wait path. -/
def get_connection (env : CreateEnv) (st : PoolState) : AcquireResult × PoolState :=
  match st.idle with
  | s :: rest =>
      if is_connection_valid s then
        (AcquireResult.ok s, { st with idle := rest })
      else
        let _ := closeConn s
        match env.fastCreate with
        | CreateResult.ok s2 => (AcquireResult.ok s2, { st with idle := rest })
        | CreateResult.fail _ => growOrWait env { st with idle := rest }
  | [] => growOrWait env st

/-- Embedding of `MySQLConnectionPool.release_connection` (lines
316-344): a total function — the method never lets an exception past its
boundary. A valid session is pushed back onto the queue with no counter
update; an invalid one has the counter decremented under the lock and is
then closed, the close outcome absorbed by a bare `except`. -/
def release_connection (st : PoolState) (s : Session) : PoolState :=
  if is_connection_valid s then
    { st with idle := st.idle ++ [s] }
  else
    let _ := closeConn s
    { st with currentConnections := st.currentConnections - 1 }

/-- Embedding of `MySQLConnectionPool._initialize_pool` (lines 183-202):
one creation attempt per element of the oracle list; each success is
queued and counted, each failure is logged and skipped without aborting
construction. -/
def init_pool : List CreateResult → PoolState → PoolState
  | [], st => st
  | CreateResult.ok s :: t, st =>
      init_pool t
        { st with idle := st.idle ++ [s],
                  currentConnections := st.currentConnections + 1 }
  | CreateResult.fail _ :: t, st => init_pool t st

/-- Embedding of `MySQLConnectionPool.__init__` (lines 119-169) followed
by `_initialize_pool`: the counter starts at 0, the queue empty, and
warm-up makes `min_connections` creation attempts (the oracle list is
truncated to that many). -/
def mkPool (minC maxC timeout : Nat) (creates : List CreateResult) : PoolState :=
  init_pool (creates.take minC)
    { minConnections := minC, maxConnections := maxC,
      connectionTimeout := timeout, currentConnections := 0, idle := [] }

/-- One caller-visible pool operation: an acquire (with its creation
oracle) or a release of a session the caller holds. -/
inductive PoolOp where
  | acquire (env : CreateEnv)
  | release (s : Session)

/-- Effect of one operation on the pool state. -/
def step (st : PoolState) (op : PoolOp) : PoolState :=
  match op with
  | PoolOp.acquire env => (get_connection env st).2
  | PoolOp.release s => release_connection st s

/-- A sequence of acquire/release calls, applied in order. -/
def runOps : PoolState → List PoolOp → PoolState
  | st, [] => st
  | st, op :: t => runOps (step st op) t

/-!
Models of the statement-executor and config-loader methods that are
EFFECTIVE on `MySQLConnectionPool`.  The class body contains a pasted-in
copy of the single-connection methods (lines 563-754); in Python a later
`def` of the same name inside the same class body replaces the earlier
one, so the pooled `execute_query` (lines 360-393), `execute_update`
(lines 395-435) and the validating `from_config_file` (lines 461-507)
are all shadowed by the later definitions.
-/

/-- The value of the attribute `connection` on a `MySQLConnectionPool`
instance.  The class attribute is the `@contextmanager`-decorated
`connection` method (line 346); only a call to the pasted-in `connect`
method (line 563) replaces it with a real session stored on the
instance.  Both values are truthy in Python, so
`if not self.connection: self.connect()` never fires. -/
inductive ConnAttr where
  | contextManagerMethod
  | dbSession (s : Session)
deriving DecidableEq

/-- Outcome of `cursor.execute` on a real session, as reported by the
backend, tagged by the `pymysql` exception class raised. -/
inductive ExecOutcome where
  | success (rows : List Nat) (affected : Int)
  | programmingError (msg : String)
  | integrityError (msg : String)
  | internalError (msg : String)
  | otherError (msg : String)
deriving DecidableEq

/-- Message of the `AttributeError` raised by `self.connection.cursor()`
when `self.connection` is the bound `connection` method. -/
def attrErrCursor : String := "function object has no attribute cursor"

/-- Message of the `AttributeError` raised by
`self.connection.rollback()` in the same situation. -/
def attrErrRollback : String := "function object has no attribute rollback"

/-- Result of one `execute_query` call: rows, a raised `DatabaseError`,
or an uncaught plain Python exception. -/
inductive QueryResult where
  | rows (rs : List Nat)
  | dbErr (e : DBError)
  | pyFault (msg : String)
deriving DecidableEq

/-- The effective `MySQLConnectionPool.execute_query`: the pasted-in
single-connection definition at lines 671-710 shadows the pooled one at
lines 360-393.  On a fresh pool, `self.connection` is the truthy bound
`connection` method, so `self.connect()` is skipped and
`self.connection.cursor()` raises `AttributeError`, which the generic
`except Exception` handler wraps into `QueryError`.  With a real session
attribute (only after calling the pasted-in `connect`) it runs the
statement on that single session.  In neither case does it touch the
pool: the pool state is returned unchanged. -/
def execute_query_effective (connAttr : ConnAttr) (st : PoolState)
    (outcome : ExecOutcome) : QueryResult × PoolState :=
  match connAttr with
  | ConnAttr.contextManagerMethod =>
      (QueryResult.dbErr (DBError.queryError ("查询执行失败: " ++ attrErrCursor)), st)
  | ConnAttr.dbSession _ =>
      match outcome with
      | ExecOutcome.success rs _ => (QueryResult.rows rs, st)
      | ExecOutcome.programmingError msg =>
          (QueryResult.dbErr (DBError.queryError ("查询语法错误: " ++ msg)), st)
      | ExecOutcome.internalError msg =>
          (QueryResult.dbErr (DBError.queryError ("查询内部错误: " ++ msg)), st)
      | ExecOutcome.integrityError msg =>
          (QueryResult.dbErr (DBError.queryError ("查询执行失败: " ++ msg)), st)
      | ExecOutcome.otherError msg =>
          (QueryResult.dbErr (DBError.queryError ("查询执行失败: " ++ msg)), st)

/-- Result of one `execute_update` call: an affected-row count, a raised
`DatabaseError`, or an uncaught plain Python exception. -/
inductive UpdateResult where
  | affected (n : Int)
  | dbErr (e : DBError)
  | pyFault (msg : String)
deriving DecidableEq

/-- The effective `MySQLConnectionPool.execute_update`: the pasted-in
definition at lines 712-754 shadows the pooled one at lines 395-435.  On
a fresh pool the `AttributeError` from `self.connection.cursor()` is
caught by `except Exception:`, whose handler first calls
`self.connection.rollback()` — a second `AttributeError` that is NOT
caught and propagates out of the method as a plain Python fault, masking
the original error and bypassing the `UpdateError` wrapping.  The pool
state is never touched. -/
def execute_update_effective (connAttr : ConnAttr) (st : PoolState)
    (outcome : ExecOutcome) : UpdateResult × PoolState :=
  match connAttr with
  | ConnAttr.contextManagerMethod => (UpdateResult.pyFault attrErrRollback, st)
  | ConnAttr.dbSession _ =>
      match outcome with
      | ExecOutcome.success _ n => (UpdateResult.affected n, st)
      | ExecOutcome.integrityError msg =>
          (UpdateResult.dbErr (DBError.updateError ("数据完整性错误: " ++ msg)), st)
      | ExecOutcome.programmingError msg =>
          (UpdateResult.dbErr (DBError.updateError ("更新语法错误: " ++ msg)), st)
      | ExecOutcome.internalError msg =>
          (UpdateResult.dbErr (DBError.updateError ("更新执行失败: " ++ msg)), st)
      | ExecOutcome.otherError msg =>
          (UpdateResult.dbErr (DBError.updateError ("更新执行失败: " ++ msg)), st)

/-- The contents of a JSON configuration file: which of the four
required keys are present, with their string values. -/
structure FileConfig where
  host : Option String
  user : Option String
  password : Option String
  database : Option String
deriving DecidableEq

/-- Outcome of opening and JSON-decoding the configuration file. -/
inductive FileRead where
  | missing
  | badJson (msg : String)
  | parsed (fc : FileConfig)
deriving DecidableEq

/-- Result of a `from_config_file` call: a constructed pool, a raised
`IOError` or `ValueError` from validation, or the generic wrapping
`Exception`. -/
inductive LoadResult where
  | pool (st : PoolState)
  | ioError (msg : String)
  | valueError (msg : String)
  | wrapped (msg : String)
deriving DecidableEq

/-- The effective `MySQLConnectionPool.from_config_file`: the pasted-in
classmethod at lines 607-623 shadows the validating classmethod at lines
461-507.  It performs no required-key validation: any successfully
parsed JSON object is passed straight to `cls(config=config)`, which
merges it over the defaults and constructs the pool (including the
warm-up attempts, whose individual failures are absorbed); read and
decode errors are wrapped in a plain `Exception`.  The shadowing
classmethod takes no size parameters, so the pool is built with the
default `min_connections=5`, `max_connections=20`,
`connection_timeout=30`. -/
def from_config_file_effective (file : FileRead)
    (creates : List CreateResult) : LoadResult :=
  match file with
  | FileRead.missing =>
      LoadResult.wrapped "从配置文件加载失败: No such file or directory"
  | FileRead.badJson msg => LoadResult.wrapped ("从配置文件加载失败: " ++ msg)
  | FileRead.parsed _ => LoadResult.pool (mkPool 5 20 30 creates)

/-- The shadowed validating `from_config_file` (lines 461-507), kept for
comparison: it checks the four required keys in order and raises
`ValueError` naming the first missing one before any pool is
constructed. -/
def from_config_file_validating (file : FileRead) (minC maxC : Nat)
    (creates : List CreateResult) : LoadResult :=
  match file with
  | FileRead.missing => LoadResult.ioError "配置文件不存在"
  | FileRead.badJson msg => LoadResult.valueError ("配置文件格式错误: " ++ msg)
  | FileRead.parsed fc =>
      if fc.host.isNone then LoadResult.valueError "配置文件缺少必要项: host"
      else if fc.user.isNone then LoadResult.valueError "配置文件缺少必要项: user"
      else if fc.password.isNone then
        LoadResult.valueError "配置文件缺少必要项: password"
      else if fc.database.isNone then
        LoadResult.valueError "配置文件缺少必要项: database"
      else LoadResult.pool (mkPool minC maxC 30 creates)

/-- Refinement comparison for the wording of acquire steps 1-2 in the
specification ("if a discard happened in step 1, decrement
`total_issued` first"): an invalid popped session is closed and control
always falls through to the locked section, which decrements the counter
for the discard before applying the max-size check.  Steps 2-3 are taken
from `growOrWait`. -/
def get_connection_specC4 (env : CreateEnv) (st : PoolState) :
    AcquireResult × PoolState :=
  match st.idle with
  | s :: rest =>
      if is_connection_valid s then
        (AcquireResult.ok s, { st with idle := rest })
      else
        let _ := closeConn s
        growOrWait env
          { st with idle := rest,
                    currentConnections := st.currentConnections - 1 }
  | [] => growOrWait env st

/-!  Helper lemmas about the counter and the size bound. -/

/-- The grow-or-wait path leaves `max_connections` unchanged. -/
theorem growOrWait_max (env : CreateEnv) (st : PoolState) :
    (growOrWait env st).2.maxConnections = st.maxConnections := by
  unfold growOrWait
  by_cases hlt : st.currentConnections < (st.maxConnections : Int)
  · cases hg : env.growCreate <;> simp [hlt, hg]
  · cases hidle : st.idle with
    | nil => simp [hlt, hidle]
    | cons s rest =>
      by_cases hv : is_connection_valid s
      · simp [hlt, hidle, hv]
      · cases hw : env.waitCreate <;> simp [hlt, hidle, hv, hw]

/-- The grow-or-wait path either leaves the counter unchanged or
increments it once, and an increment only happens strictly below the
maximum. -/
theorem growOrWait_counter (env : CreateEnv) (st : PoolState) :
    (growOrWait env st).2.currentConnections = st.currentConnections ∨
      ((growOrWait env st).2.currentConnections = st.currentConnections + 1 ∧
        st.currentConnections < (st.maxConnections : Int)) := by
  unfold growOrWait
  by_cases hlt : st.currentConnections < (st.maxConnections : Int)
  · cases hg : env.growCreate with
    | ok s => right; exact ⟨by simp [hlt, hg], hlt⟩
    | fail msg => left; simp [hlt, hg]
  · left
    cases hidle : st.idle with
    | nil => simp [hlt, hidle]
    | cons s rest =>
      by_cases hv : is_connection_valid s
      · simp [hlt, hidle, hv]
      · cases hw : env.waitCreate <;> simp [hlt, hidle, hv, hw]

/-- `get_connection` leaves `max_connections` unchanged. -/
theorem get_connection_max (env : CreateEnv) (st : PoolState) :
    (get_connection env st).2.maxConnections = st.maxConnections := by
  unfold get_connection
  cases hidle : st.idle with
  | nil => exact growOrWait_max env st
  | cons s rest =>
    by_cases hv : is_connection_valid s
    · simp [hv]
    · cases hf : env.fastCreate with
      | ok s2 => simp [hv, hf]
      | fail msg => simpa [hv, hf] using growOrWait_max env { st with idle := rest }

/-- `get_connection` either leaves the counter unchanged or increments
it once, and an increment only happens strictly below the maximum. -/
theorem get_connection_counter (env : CreateEnv) (st : PoolState) :
    (get_connection env st).2.currentConnections = st.currentConnections ∨
      ((get_connection env st).2.currentConnections = st.currentConnections + 1 ∧
        st.currentConnections < (st.maxConnections : Int)) := by
  unfold get_connection
  cases hidle : st.idle with
  | nil => exact growOrWait_counter env st
  | cons s rest =>
    by_cases hv : is_connection_valid s
    · left; simp [hv]
    · cases hf : env.fastCreate with
      | ok s2 => left; simp [hv, hf]
      | fail msg => simpa [hv, hf] using growOrWait_counter env { st with idle := rest }

/-- One acquire or release step leaves `max_connections` unchanged. -/
theorem step_max (st : PoolState) (op : PoolOp) :
    (step st op).maxConnections = st.maxConnections := by
  cases op with
  | acquire env => exact get_connection_max env st
  | release s =>
    unfold step release_connection
    by_cases hv : is_connection_valid s <;> simp [hv]

/-- One acquire or release step preserves the bound
`current_connections ≤ max_connections`. -/
theorem step_counter_le (st : PoolState) (op : PoolOp)
    (h : st.currentConnections ≤ (st.maxConnections : Int)) :
    (step st op).currentConnections ≤ (st.maxConnections : Int) := by
  cases op with
  | acquire env =>
    show (get_connection env st).2.currentConnections ≤ (st.maxConnections : Int)
    rcases get_connection_counter env st with hc | ⟨hc, hlt⟩
    · omega
    · omega
  | release s =>
    unfold step release_connection
    by_cases hv : is_connection_valid s <;> simp [hv] <;> omega

/-- Running any operation sequence preserves `max_connections` and the
bound `current_connections ≤ max_connections`. -/
theorem runOps_inv (ops : List PoolOp) (st : PoolState)
    (h : st.currentConnections ≤ (st.maxConnections : Int)) :
    (runOps st ops).maxConnections = st.maxConnections ∧
      (runOps st ops).currentConnections ≤ (st.maxConnections : Int) := by
  induction ops generalizing st with
  | nil => exact ⟨rfl, h⟩
  | cons op t ih =>
    have hmax := step_max st op
    have hcnt := step_counter_le st op h
    have hrec := ih (step st op) (by rw [hmax]; exact hcnt)
    refine ⟨?_, ?_⟩
    · show (runOps (step st op) t).maxConnections = st.maxConnections
      rw [hrec.1, hmax]
    · show (runOps (step st op) t).currentConnections ≤ (st.maxConnections : Int)
      have := hrec.2
      rw [hmax] at this
      exact this

/-- Warm-up leaves `max_connections` unchanged. -/
theorem init_pool_max (l : List CreateResult) (st : PoolState) :
    (init_pool l st).maxConnections = st.maxConnections := by
  induction l generalizing st with
  | nil => rfl
  | cons r t ih =>
    cases r with
    | ok s =>
      simpa [init_pool] using
        ih { st with idle := st.idle ++ [s],
                     currentConnections := st.currentConnections + 1 }
    | fail msg => simpa [init_pool] using ih st

/-- Warm-up increments the counter at most once per creation attempt. -/
theorem init_pool_counter (l : List CreateResult) (st : PoolState) :
    (init_pool l st).currentConnections ≤
      st.currentConnections + (l.length : Int) := by
  induction l generalizing st with
  | nil => simp [init_pool]
  | cons r t ih =>
    cases r with
    | ok s =>
      have h := ih { st with idle := st.idle ++ [s],
                             currentConnections := st.currentConnections + 1 }
      simp only [init_pool] at h ⊢
      simp only [List.length_cons]
      push_cast
      omega
    | fail msg =>
      have h := ih st
      simp only [init_pool]
      simp only [List.length_cons]
      push_cast
      omega

/-!  Claim theorems. -/

/-- C1: for every pool constructed with
`min_connections ≤ max_connections` and every sequence of
`get_connection` / `release_connection` calls, at no observation point
does the counter `current_connections` (the spec's `total_issued`)
exceed `max_connections`: warm-up counts at most `min_connections`
sessions, the locked grow path increments only strictly below the
maximum, and releases never increment. -/
theorem acquire_release_never_exceeds_max (minC maxC timeout : Nat)
    (creates : List CreateResult) (ops : List PoolOp) (hLe : minC ≤ maxC) :
    (runOps (mkPool minC maxC timeout creates) ops).currentConnections ≤
      (maxC : Int) := by
  have hmax : (mkPool minC maxC timeout creates).maxConnections = maxC := by
    unfold mkPool
    rw [init_pool_max]
  have hcnt : (mkPool minC maxC timeout creates).currentConnections ≤ (minC : Int) := by
    unfold mkPool
    have h := init_pool_counter (creates.take minC)
      { minConnections := minC, maxConnections := maxC,
        connectionTimeout := timeout, currentConnections := 0, idle := [] }
    have hlen : (creates.take minC).length ≤ minC := by
      rw [List.length_take]
      omega
    simp only at h
    omega
  have hinv : (mkPool minC maxC timeout creates).currentConnections ≤
      ((mkPool minC maxC timeout creates).maxConnections : Int) := by
    rw [hmax]; omega
  have h := (runOps_inv ops (mkPool minC maxC timeout creates) hinv).2
  rw [hmax] at h
  exact h

/-- Witness for C1 at a concrete pool (min 1, max 2) and a concrete
acquire/release sequence. -/
theorem acquire_release_never_exceeds_max_witness :
    1 ≤ 2 ∧
      (runOps (mkPool 1 2 30 [CreateResult.ok ⟨0, true, true⟩])
        [PoolOp.acquire ⟨CreateResult.ok ⟨1, true, true⟩,
            CreateResult.ok ⟨2, true, true⟩, CreateResult.ok ⟨3, true, true⟩⟩,
          PoolOp.acquire ⟨CreateResult.ok ⟨4, true, true⟩,
            CreateResult.ok ⟨5, true, true⟩, CreateResult.ok ⟨6, true, true⟩⟩,
          PoolOp.release ⟨0, false, true⟩]).currentConnections ≤ (2 : Int) :=
  ⟨by decide,
    acquire_release_never_exceeds_max 1 2 30 [CreateResult.ok ⟨0, true, true⟩]
      [PoolOp.acquire ⟨CreateResult.ok ⟨1, true, true⟩,
          CreateResult.ok ⟨2, true, true⟩, CreateResult.ok ⟨3, true, true⟩⟩,
        PoolOp.acquire ⟨CreateResult.ok ⟨4, true, true⟩,
          CreateResult.ok ⟨5, true, true⟩, CreateResult.ok ⟨6, true, true⟩⟩,
        PoolOp.release ⟨0, false, true⟩] (by decide)⟩

/-- C2 (code evaluation at the failing input): on a fresh pool —
`self.connection` is the bound contextmanager method — the effective
`execute_query` raises `QueryError` from the `AttributeError` on
`self.connection.cursor()` for every pool state and every backend
outcome, including one that would have returned rows, and never acquires
a pool session: the pool state is returned unchanged.  This contradicts
the claim that the pool's `execute_query` acquires a pooled session via
scoped acquisition and returns all rows on success. -/
theorem execute_query_effective_never_pools (st : PoolState)
    (outcome : ExecOutcome) :
    execute_query_effective ConnAttr.contextManagerMethod st outcome =
      (QueryResult.dbErr
          (DBError.queryError ("查询执行失败: " ++ attrErrCursor)), st) := rfl

/-- C3: on a pool whose counter sits at `max_connections` with an empty
idle queue and no release arriving within the timeout (the sequential
semantics of the blocking wait), `get_connection` returns — it does not
hang — with a `PoolExhaustedError` whose message interpolates the
configured `connection_timeout`, and the pool state is unchanged. -/
theorem get_connection_pool_exhausted (env : CreateEnv) (st : PoolState)
    (hidle : st.idle = [])
    (hfull : st.currentConnections = (st.maxConnections : Int)) :
    get_connection env st =
      (AcquireResult.err
          (DBError.poolExhausted (poolExhaustedMsg st.connectionTimeout)), st) := by
  have hnlt : ¬ st.currentConnections < (st.maxConnections : Int) := by omega
  unfold get_connection growOrWait
  simp [hidle, hnlt]

/-- Witness for C3: a pool with max 2, counter 2, empty queue, timeout
30 seconds. -/
theorem get_connection_pool_exhausted_witness :
    get_connection
        ⟨CreateResult.fail "a", CreateResult.fail "b", CreateResult.fail "c"⟩
        ⟨5, 2, 30, 2, []⟩ =
      (AcquireResult.err (DBError.poolExhausted (poolExhaustedMsg 30)),
        ⟨5, 2, 30, 2, []⟩) :=
  get_connection_pool_exhausted
    ⟨CreateResult.fail "a", CreateResult.fail "b", CreateResult.fail "c"⟩
    ⟨5, 2, 30, 2, []⟩ rfl (by decide)

/-- C4 counterexample: pool with max 1, counter 1, one invalid idle
session; the fast-path replacement succeeds, the grow-path factory would
fail.  `get_connection` returns the fast-path replacement and leaves the
counter at 1 — it neither falls through to the locked section nor
decrements — whereas the procedure following the claim's words
(discard, fall through, decrement first, then the max-size check) ends
with counter 0 and a `ConnectionError`.  The two disagree at this input,
so the claim as stated is false of the code. -/
theorem get_connection_step2_decrement_counterexample :
    get_connection
        ⟨CreateResult.ok ⟨1, true, true⟩, CreateResult.fail "g", CreateResult.fail "w"⟩
        ⟨1, 1, 30, 1, [⟨0, false, true⟩]⟩ ≠
      get_connection_specC4
        ⟨CreateResult.ok ⟨1, true, true⟩, CreateResult.fail "g", CreateResult.fail "w"⟩
        ⟨1, 1, 30, 1, [⟨0, false, true⟩]⟩ ∧
    (get_connection
        ⟨CreateResult.ok ⟨1, true, true⟩, CreateResult.fail "g", CreateResult.fail "w"⟩
        ⟨1, 1, 30, 1, [⟨0, false, true⟩]⟩).2.currentConnections = 1 ∧
    (get_connection_specC4
        ⟨CreateResult.ok ⟨1, true, true⟩, CreateResult.fail "g", CreateResult.fail "w"⟩
        ⟨1, 1, 30, 1, [⟨0, false, true⟩]⟩).2.currentConnections = 0 := by
  decide

/-- C4 (amended): when the non-blocking pop yields a session that fails
the liveness probe, the session is closed without decrementing the
counter and a replacement is created in the fast path itself; only if
that creation fails does control fall through to the locked
grow-or-wait path, which never decrements the counter — it applies the
max-size check directly and at most increments. -/
theorem fast_path_invalid_no_decrement (env : CreateEnv) (st : PoolState)
    (s : Session) (rest : List Session)
    (hidle : st.idle = s :: rest) (hbad : is_connection_valid s = false) :
    (∀ s2, env.fastCreate = CreateResult.ok s2 →
        get_connection env st = (AcquireResult.ok s2, { st with idle := rest })) ∧
    (∀ msg, env.fastCreate = CreateResult.fail msg →
        get_connection env st = growOrWait env { st with idle := rest }) ∧
    ((growOrWait env { st with idle := rest }).2.currentConnections =
        st.currentConnections ∨
      (growOrWait env { st with idle := rest }).2.currentConnections =
        st.currentConnections + 1) := by
  refine ⟨?_, ?_, ?_⟩
  · intro s2 hf
    simp [get_connection, hidle, hbad, hf]
  · intro msg hf
    simp [get_connection, hidle, hbad, hf]
  · rcases growOrWait_counter env { st with idle := rest } with hc | ⟨hc, _⟩
    · left; simpa using hc
    · right; simpa using hc

/-- Witness for C4 (amended): an invalid idle session is replaced in
place, counter untouched. -/
theorem fast_path_invalid_no_decrement_witness :
    get_connection
        ⟨CreateResult.ok ⟨1, true, true⟩, CreateResult.fail "g", CreateResult.fail "w"⟩
        ⟨1, 2, 30, 1, [⟨0, false, true⟩]⟩ =
      (AcquireResult.ok ⟨1, true, true⟩, ⟨1, 2, 30, 1, []⟩) :=
  (fast_path_invalid_no_decrement
      ⟨CreateResult.ok ⟨1, true, true⟩, CreateResult.fail "g", CreateResult.fail "w"⟩
      ⟨1, 2, 30, 1, [⟨0, false, true⟩]⟩ ⟨0, false, true⟩ [] rfl (by decide)).1
    ⟨1, true, true⟩ rfl

/-- C5 counterexample: pool with max 2, counter 2, two invalid idle
sessions, all three factory calls failing.  The wait path pops the
second invalid session, closes it, and when the replacement creation
fails the `ConnectionError` is caught at line 292 and re-raised as
`PoolExhaustedError`; the counter stays at 2 (no decrement, no max-size
check).  This contradicts the claim that the discard decrements the
counter and that the failure surfaces as `ConnectionError`, not
`PoolExhausted`. -/
theorem wait_path_connection_error_counterexample :
    get_connection
        ⟨CreateResult.fail "f", CreateResult.fail "g", CreateResult.fail "w"⟩
        ⟨2, 2, 7, 2, [⟨0, false, true⟩, ⟨1, false, true⟩]⟩ =
      (AcquireResult.err (DBError.poolExhausted (poolExhaustedMsg 7)),
        ⟨2, 2, 7, 2, []⟩) := by
  decide

/-- C5 (amended): in the blocking-wait path, a session obtained from the
queue within the timeout that fails the liveness probe is closed without
decrementing the counter, and a replacement is created directly with no
max-size check; failure to create that replacement is caught by the
wait-path handler and surfaces as `PoolExhaustedError` carrying the
configured timeout, not as `ConnectionError`. -/
theorem wait_path_invalid_discard (env : CreateEnv) (st : PoolState)
    (s : Session) (rest : List Session)
    (hfull : ¬ st.currentConnections < (st.maxConnections : Int))
    (hidle : st.idle = s :: rest) (hbad : is_connection_valid s = false) :
    (∀ s2, env.waitCreate = CreateResult.ok s2 →
        growOrWait env st = (AcquireResult.ok s2, { st with idle := rest })) ∧
    (∀ msg, env.waitCreate = CreateResult.fail msg →
        growOrWait env st =
          (AcquireResult.err
              (DBError.poolExhausted (poolExhaustedMsg st.connectionTimeout)),
            { st with idle := rest })) := by
  constructor
  · intro s2 hw
    simp [growOrWait, hfull, hidle, hbad, hw]
  · intro msg hw
    simp [growOrWait, hfull, hidle, hbad, hw]

/-- Witness for C5 (amended): wait path at a full pool, invalid queued
session, replacement creation succeeding; counter unchanged. -/
theorem wait_path_invalid_discard_witness :
    growOrWait
        ⟨CreateResult.fail "f", CreateResult.fail "g", CreateResult.ok ⟨3, true, true⟩⟩
        ⟨2, 2, 7, 2, [⟨1, false, true⟩]⟩ =
      (AcquireResult.ok ⟨3, true, true⟩, ⟨2, 2, 7, 2, []⟩) :=
  (wait_path_invalid_discard
      ⟨CreateResult.fail "f", CreateResult.fail "g", CreateResult.ok ⟨3, true, true⟩⟩
      ⟨2, 2, 7, 2, [⟨1, false, true⟩]⟩ ⟨1, false, true⟩ [] (by decide) rfl
      (by decide)).1 ⟨3, true, true⟩ rfl

/-- C6: `release_connection` is total (its Python body never lets an
exception past its boundary, embedded as a plain function into
`PoolState`).  A session the liveness probe accepts is pushed back onto
the idle queue with the counter untouched; a session the probe rejects
has the counter decremented under the lock and is closed, and a failure
of that close (`closeOk = false`) is absorbed and does not change the
result. -/
theorem release_connection_total (st : PoolState) (s : Session) :
    (is_connection_valid s = true →
        release_connection st s = { st with idle := st.idle ++ [s] }) ∧
    (is_connection_valid s = false →
        release_connection st s =
          { st with currentConnections := st.currentConnections - 1 }) ∧
    (is_connection_valid s = false →
        release_connection st { s with closeOk := false } =
          release_connection st s) := by
  refine ⟨?_, ?_, ?_⟩
  · intro h
    simp [release_connection, h]
  · intro h
    simp [release_connection, h]
  · intro h
    have h2 : is_connection_valid { s with closeOk := false } = false := by
      simpa [is_connection_valid, ping] using h
    simp [release_connection, h, h2]

/-- Witness for C6: a valid session is re-queued, an invalid one
decrements the counter, close failure included. -/
theorem release_connection_total_witness :
    release_connection ⟨1, 2, 30, 2, []⟩ ⟨0, true, true⟩ =
        ⟨1, 2, 30, 2, [⟨0, true, true⟩]⟩ ∧
      release_connection ⟨1, 2, 30, 2, []⟩ ⟨1, false, false⟩ =
        ⟨1, 2, 30, 1, []⟩ :=
  ⟨(release_connection_total ⟨1, 2, 30, 2, []⟩ ⟨0, true, true⟩).1 (by decide),
    (release_connection_total ⟨1, 2, 30, 2, []⟩ ⟨1, false, false⟩).2.1 (by decide)⟩

/-- C7 (code evaluation at the failing input): on a fresh pool the
effective `execute_update` — the pasted-in definition shadowing the
pooled one — propagates the `AttributeError` raised by
`self.connection.rollback()` inside its own exception handler: for every
pool state and every backend outcome the call ends in a plain Python
fault, not an `UpdateError`, the rollback failure masks the original
error, no commit or row count is produced, and the pool is never
touched.  This contradicts the claim that failures are re-raised as
`UpdateError` with rollback failures logged rather than propagated. -/
theorem execute_update_effective_plain_fault (st : PoolState)
    (outcome : ExecOutcome) :
    execute_update_effective ConnAttr.contextManagerMethod st outcome =
      (UpdateResult.pyFault attrErrRollback, st) := rfl

/-- C8 (code evaluation at the failing input): for a parsed
configuration file supplying only `host` — `user`, `password` and
`database` all missing — the effective `from_config_file` (the pasted-in
classmethod shadowing the validating one) raises no validation error: it
constructs and returns a pool built over the defaults, while the
shadowed validating definition would have raised `ValueError` for the
missing `user` key before any pool construction. -/
theorem from_config_file_effective_skips_validation :
    from_config_file_effective (FileRead.parsed ⟨some "h", none, none, none⟩) [] =
        LoadResult.pool (mkPool 5 20 30 []) ∧
      from_config_file_validating (FileRead.parsed ⟨some "h", none, none, none⟩)
          5 20 [] =
        LoadResult.valueError "配置文件缺少必要项: user" :=
  ⟨rfl, rfl⟩

/-- C9: the liveness probe `_is_connection_valid` is total — it returns
a `Bool` for every session (its Python body catches every exception) —
and it equals the bare outcome of `ping` with `reconnect := false`: a
dead session is mapped to `false`, and since `ping` with
`reconnect := true` succeeds on every session (second conjunct), the
equality with `pingOk` certifies that the probe issues the ping with
reconnection disabled. -/
theorem is_connection_valid_total_no_reconnect (s : Session) :
    is_connection_valid s = s.pingOk ∧ ping s true = Except.ok () := by
  constructor
  · cases h : s.pingOk <;> simp [is_connection_valid, ping, h]
  · cases h : s.pingOk <;> simp [ping, h]

/-- C10: an exception inside the non-blocking fast path — here the
`ConnectionError` from creating a replacement for an invalid idle
session — is caught by the `except Exception:` handler, and the call
proceeds to the grow-or-wait path as if the queue had been empty; when
the grow path then succeeds it increments `current_connections`, even
though the session discarded in the fast path was never decremented, so
the counter exceeds the number of live sessions (witness: counter 2
with one live session). -/
theorem fast_path_exception_falls_through (env : CreateEnv) (st : PoolState)
    (s : Session) (rest : List Session) (msg : String) (s2 : Session)
    (hidle : st.idle = s :: rest) (hbad : is_connection_valid s = false)
    (hfail : env.fastCreate = CreateResult.fail msg)
    (hroom : st.currentConnections < (st.maxConnections : Int))
    (hok : env.growCreate = CreateResult.ok s2) :
    get_connection env st =
      (AcquireResult.ok s2,
        { st with idle := rest,
                  currentConnections := st.currentConnections + 1 }) := by
  simp [get_connection, growOrWait, hidle, hbad, hfail, hok, hroom]

/-- Witness for C10: a pool holding one dead session with counter 1;
after the acquire the caller holds the only live session while the
counter reads 2. -/
theorem fast_path_exception_falls_through_witness :
    get_connection
        ⟨CreateResult.fail "f", CreateResult.ok ⟨7, true, true⟩, CreateResult.fail "w"⟩
        ⟨1, 2, 30, 1, [⟨0, false, true⟩]⟩ =
      (AcquireResult.ok ⟨7, true, true⟩, ⟨1, 2, 30, 2, []⟩) :=
  fast_path_exception_falls_through
    ⟨CreateResult.fail "f", CreateResult.ok ⟨7, true, true⟩, CreateResult.fail "w"⟩
    ⟨1, 2, 30, 1, [⟨0, false, true⟩]⟩ ⟨0, false, true⟩ [] "f" ⟨7, true, true⟩
    rfl (by decide) rfl (by decide) rfl

end Mysql
